import Mathlib

/-!
Shallow embedding of the deployment controller (Go repository `0p5dev/controller`)
and verification of its natural-language specification.

The embedding mirrors the request handlers of the repository:
`createDeployment` (internal/api/createDeployment.go),
`deleteDeploymentByName` (internal/api/deleteDeploymentByName.go),
`cleanupPulumiStateFiles` (internal/api/cleanup.go),
`listDeployments`, and `pushToContainerRegistry`.  All external collaborators
(the Pulumi automation API, the Docker daemon, the container registry, the
Cloud Storage bucket and the Postgres pool) are abstracted as explicit
environment records whose fields hold the outcome of each fallible call,
exactly in the order the Go code issues them.  The Postgres `deployments`
table is modelled as a list of rows, and every SQL statement the handlers
issue is both interpreted against that list and recorded in an operation
trace, so that claims about "no database write happened" are claims about
the trace.
-/

/-! ### Byte and string helpers -/

/-- Does the list start with the given pattern?  Mirror of the positional check
underlying Go `strings.Contains`. -/
def startsWithSeq {α : Type} [DecidableEq α] : List α → List α → Bool
  | _, [] => true
  | [], _ :: _ => false
  | a :: as, b :: bs => a = b && startsWithSeq as bs

/-- Does `hay` contain `needle` as a contiguous subsequence?  Mirror of Go
`strings.Contains` (byte search; at the character level here). -/
def containsSeq {α : Type} [DecidableEq α] : List α → List α → Bool
  | [], needle => startsWithSeq [] needle
  | a :: as, needle => startsWithSeq (a :: as) needle || containsSeq as needle

/-- Go `strings.Contains(s, sub)`, modelled on the character sequences of the
two strings. -/
def strContains (s sub : String) : Bool := containsSeq s.data sub.data

/-- Parse a decimal digit list; `none` when empty or when a non-digit occurs.
Helper for the model of Go `strconv.Atoi`. -/
def parseDigits : List Char → Option Nat
  | [] => none
  | cs =>
    if cs.all (fun c => c.isDigit) then
      some (cs.foldl (fun a c => a * 10 + (c.toNat - 48)) 0)
    else none

/-- Go `strconv.Atoi`: optional sign, decimal digits, error (here `none`) on
empty input, stray characters, or a value outside the `int64` range. -/
def goAtoi (s : String) : Option Int :=
  match s.data with
  | '+' :: rest =>
    (parseDigits rest).bind (fun n => if n ≤ 2 ^ 63 - 1 then some (n : Int) else none)
  | '-' :: rest =>
    (parseDigits rest).bind (fun n => if n ≤ 2 ^ 63 then some (-(n : Int)) else none)
  | l =>
    (parseDigits l).bind (fun n => if n ≤ 2 ^ 63 - 1 then some (n : Int) else none)

/-! ### SHA-256 (Go `crypto/sha256.Sum256`) and hex encoding (`encoding/hex`)

Implemented over lists of byte values (`Nat` below `256`) with 32-bit
arithmetic made explicit through `% 2 ^ 32`. -/

/-- Rotate a 32-bit word right by `n` bits. -/
def rotr32 (n x : Nat) : Nat := (x >>> n) ||| ((x <<< (32 - n)) % 2 ^ 32)

def smallSigma0 (x : Nat) : Nat := rotr32 7 x ^^^ rotr32 18 x ^^^ (x >>> 3)

def smallSigma1 (x : Nat) : Nat := rotr32 17 x ^^^ rotr32 19 x ^^^ (x >>> 10)

def bigSigma0 (x : Nat) : Nat := rotr32 2 x ^^^ rotr32 13 x ^^^ rotr32 22 x

def bigSigma1 (x : Nat) : Nat := rotr32 6 x ^^^ rotr32 11 x ^^^ rotr32 25 x

def chFn (x y z : Nat) : Nat := (x &&& y) ^^^ ((x ^^^ 0xffffffff) &&& z)

def majFn (x y z : Nat) : Nat := (x &&& y) ^^^ (x &&& z) ^^^ (y &&& z)

/-- The 64 SHA-256 round constants (FIPS 180-4, written in decimal). -/
def sha256K : List Nat :=
  [1116352408, 1899447441, 3049323471, 3921009573, 961987163,
   1508970993, 2453635748, 2870763221, 3624381080, 310598401,
   607225278, 1426881987, 1925078388, 2162078206, 2614888103,
   3248222580, 3835390401, 4022224774, 264347078, 604807628,
   770255983, 1249150122, 1555081692, 1996064986, 2554220882,
   2821834349, 2952996808, 3210313671, 3336571891, 3584528711,
   113926993, 338241895, 666307205, 773529912, 1294757372,
   1396182291, 1695183700, 1986661051, 2177026350, 2456956037,
   2730485921, 2820302411, 3259730800, 3345764771, 3516065817,
   3600352804, 4094571909, 275423344, 430227734, 506948616,
   659060556, 883997877, 958139571, 1322822218, 1537002063,
   1747873779, 1955562222, 2024104815, 2227730452, 2361852424,
   2428436474, 2756734187, 3204031479, 3329325298]

/-- The SHA-256 initial hash value (FIPS 180-4, written in decimal). -/
def sha256H0 : List Nat :=
  [1779033703, 3144134277, 1013904242, 2773480762,
   1359893119, 2600822924, 528734635, 1541459225]

/-- Pad a byte message to a multiple of 64 bytes: a `0x80` byte, zero bytes,
then the bit length as a 64-bit big-endian integer. -/
def padMessage (msg : List Nat) : List Nat :=
  let bitLen := msg.length * 8
  let padZeros := (119 - msg.length % 64) % 64
  msg ++ [0x80] ++ List.replicate padZeros 0 ++
    (List.range 8).map (fun i => (bitLen >>> (8 * (7 - i))) % 256)

/-- Big-endian word from a byte list. -/
def bytesToWord (bs : List Nat) : Nat := bs.foldl (fun a b => a * 256 + b) 0

/-- The 16 message words of the `blk`-th 64-byte block. -/
def blockWords (padded : List Nat) (blk : Nat) : List Nat :=
  (List.range 16).map (fun i => bytesToWord ((padded.drop (blk * 64 + i * 4)).take 4))

/-- Extend 16 message words to the 64-entry message schedule. -/
def extendWords (w0 : List Nat) : List Nat :=
  (List.range 48).foldl
    (fun w _ =>
      let n := w.length
      let s0 := smallSigma0 (w.getD (n - 15) 0)
      let s1 := smallSigma1 (w.getD (n - 2) 0)
      w ++ [(w.getD (n - 16) 0 + s0 + w.getD (n - 7) 0 + s1) % 2 ^ 32])
    w0

/-- One SHA-256 compression round on the eight working variables. -/
def sha256Round (st : List Nat) (ki wi : Nat) : List Nat :=
  let a := st.getD 0 0
  let b := st.getD 1 0
  let c := st.getD 2 0
  let d := st.getD 3 0
  let e := st.getD 4 0
  let f := st.getD 5 0
  let g := st.getD 6 0
  let h := st.getD 7 0
  let t1 := (h + bigSigma1 e + chFn e f g + ki + wi) % 2 ^ 32
  let t2 := (bigSigma0 a + majFn a b c) % 2 ^ 32
  [(t1 + t2) % 2 ^ 32, a, b, c, (d + t1) % 2 ^ 32, e, f, g]

/-- Compress one block into the running hash value. -/
def compressBlock (h : List Nat) (w : List Nat) : List Nat :=
  let fin := (List.range 64).foldl
    (fun st i => sha256Round st (sha256K.getD i 0) (w.getD i 0)) h
  (List.range 8).map (fun i => (h.getD i 0 + fin.getD i 0) % 2 ^ 32)

/-- SHA-256 of a byte message, as eight 32-bit words. -/
def sha256Words (msg : List Nat) : List Nat :=
  let padded := padMessage msg
  (List.range (padded.length / 64)).foldl
    (fun h b => compressBlock h (extendWords (blockWords padded b))) sha256H0

/-- Big-endian bytes of a 32-bit word. -/
def wordBytes (w : Nat) : List Nat :=
  [(w >>> 24) % 256, (w >>> 16) % 256, (w >>> 8) % 256, w % 256]

/-- SHA-256 digest of a byte message (Go `sha256.Sum256`). -/
def sha256 (msg : List Nat) : List Nat := ((sha256Words msg).map wordBytes).flatten

/-- Lowercase hexadecimal digit. -/
def hexDigit (n : Nat) : Char :=
  if n < 10 then Char.ofNat (48 + n) else Char.ofNat (97 + (n - 10))

/-- Go `hex.EncodeToString` over a byte list. -/
def hexOfBytes (bs : List Nat) : String :=
  String.mk ((bs.map (fun b => [hexDigit (b / 16), hexDigit (b % 16)])).flatten)

/-- The UTF-8 bytes of a string (Go `[]byte(s)`). -/
def utf8Bytes (s : String) : List Nat := s.toUTF8.toList.map (fun b => b.toNat)

/-! ### Stack identity derivation

Both handlers derive the stack and project names inline; the two definitions
below embed the two occurrences separately so their agreement is a theorem. -/

/-- Lines 130–135 of `createDeployment.go`: `hash := sha256.Sum256([]byte(email))`,
`userHash := hex.EncodeToString(hash[:])[:8]`,
`stackName := fmt.Sprintf("stack-%s-%s", name, userHash)`,
`projectName := fmt.Sprintf("project-%s", name)`. -/
def createStackIdentity (name email : String) : String × String :=
  ("stack-" ++ name ++ "-" ++ (hexOfBytes (sha256 (utf8Bytes email))).take 8,
   "project-" ++ name)

/-- Lines 60–65 of `deleteDeploymentByName.go`: the same derivation, written
there a second time. -/
def deleteStackIdentity (name email : String) : String × String :=
  ("stack-" ++ name ++ "-" ++ (hexOfBytes (sha256 (utf8Bytes email))).take 8,
   "project-" ++ name)

/-! ### Data model

`deployments` table rows (internal/data/models/deployment.go): columns
`id, name, url, container_image, user_email, min_instances, max_instances,
created_at, updated_at`.  Timestamps are abstracted as naturals. -/

structure Row where
  id : String
  name : String
  url : String
  containerImage : String
  userEmail : String
  minInstances : Int
  maxInstances : Int
  createdAt : Nat
  updatedAt : Nat
deriving DecidableEq

/-- The JSON request body of `POST /deployments` (`api.RequestBody`); Go zero
values stand for omitted fields. -/
structure RequestBody where
  name : String
  containerImage : String
  minInstances : Int
  maxInstances : Int
deriving DecidableEq

/-- A SQL statement issued to the `deployments` table, as recorded in the
operation trace of a handler run. -/
inductive DbOp where
  | selectId (name email : String)
  | updateRow (image : String) (minI maxI : Int) (id : String)
  | insertRow (name url image email : String) (minI maxI : Int)
  | deleteRow (id : String)
deriving DecidableEq

/-- `SELECT id FROM deployments WHERE name = $1 AND user_email = $2`, reading
the first matching row (the handlers consume a single row). -/
def lookupId (table : List Row) (name email : String) : Option String :=
  ((table.filter (fun r => r.name == name && r.userEmail == email)).head?).map
    (fun r => r.id)

/-- `UPDATE deployments SET container_image=$1, min_instances=$2,
max_instances=$3 WHERE id=$4` interpreted on the table model: only those three
columns change, and only on rows with the given id. -/
def applyUpdate (table : List Row) (image : String) (mn mx : Int) (id : String) :
    List Row :=
  table.map (fun r =>
    if r.id == id then
      { r with containerImage := image, minInstances := mn, maxInstances := mx }
    else r)

/-! ### createDeployment (internal/api/createDeployment.go)

Every fallible collaborator call is a field of `CreateEnv`, in program order.
`SetConfig`'s return value is discarded by the Go code, so it has no field. -/

structure CreateEnv where
  /-- `c.ShouldBindJSON(&req)`. -/
  bindRes : Except String RequestBody
  /-- `userClaims.Email` of the authenticated caller. -/
  email : String
  /-- Does `app.Pool.Query(SELECT id ...)` fail? -/
  queryFails : Bool
  /-- Does `rows.Scan(&existingDeploymentId)` fail (when a row exists)? -/
  scanFails : Bool
  /-- `auto.UpsertStackInlineSource`. -/
  upsertRes : Except String Unit
  /-- `w.InstallPlugin(ctx, "gcp", "v9.3.0")`. -/
  installRes : Except String Unit
  /-- `s.Refresh(ctx)`. -/
  refreshRes : Except String Unit
  /-- `s.Up(ctx, ...)`: on success, `output.Summary.ResourceChanges` — `none`
  models a nil map, otherwise the map as an association list. -/
  upRes : Except String (Option (List (String × Int)))
  /-- `s.Outputs(ctx)`: on success, the optional `serviceUrl` output value. -/
  outputsRes : Except String (Option String)
  /-- Does the `UPDATE deployments ...` Exec fail? -/
  updateExecFails : Bool
  /-- Does the `INSERT INTO deployments ...` Exec fail? -/
  insertExecFails : Bool
  /-- The `gen_random_uuid()` id assigned by the INSERT's column default. -/
  newId : String
  /-- The `NOW()` timestamp assigned by the INSERT's column defaults. -/
  now : Nat

/-- Observable outcome of one `createDeployment` run: HTTP status, the
`service_url` of a 200 body, the resulting table, and the trace of SQL
statements issued to the `deployments` table. -/
structure CreateOutcome where
  status : Nat
  serviceUrl : Option String
  table : List Row
  dbOps : List DbOp
deriving DecidableEq

/-- Shallow embedding of `createDeployment` (internal/api/createDeployment.go,
lines 39–257), step for step in source order. -/
def createDeployment (env : CreateEnv) (table : List Row) : CreateOutcome :=
  match env.bindRes with
  | .error _ => ⟨400, none, table, []⟩
  | .ok req0 =>
    let req : RequestBody :=
      { req0 with
          minInstances := if req0.minInstances = 0 then 0 else req0.minInstances,
          maxInstances := if req0.maxInstances = 0 then 1 else req0.maxInstances }
    let ops0 := [DbOp.selectId req.name env.email]
    if env.queryFails then ⟨500, none, table, ops0⟩
    else
      let found := lookupId table req.name env.email
      if found.isSome && env.scanFails then ⟨500, none, table, ops0⟩
      else
        let _stackAndProject := createStackIdentity req.name env.email
        match env.upsertRes with
        | .error _ => ⟨500, none, table, ops0⟩
        | .ok _ =>
          match env.installRes with
          | .error _ => ⟨500, none, table, ops0⟩
          | .ok _ =>
            match env.refreshRes with
            | .error _ => ⟨500, none, table, ops0⟩
            | .ok _ =>
              match env.upRes with
              | .error _ => ⟨500, none, table, ops0⟩
              | .ok resourceChanges =>
                match resourceChanges with
                | none => ⟨500, none, table, ops0⟩
                | some changes =>
                  if changes.isEmpty then ⟨500, none, table, ops0⟩
                  else if changes.foldl (fun a p => a + p.2) 0 = 0 then
                    ⟨500, none, table, ops0⟩
                  else
                    match env.outputsRes with
                    | .error _ => ⟨500, none, table, ops0⟩
                    | .ok urlOutput =>
                      let serviceUrl := urlOutput.getD "URL not available"
                      match found with
                      | some existingId =>
                        let ops := ops0 ++
                          [DbOp.updateRow req.containerImage req.minInstances
                            req.maxInstances existingId]
                        if env.updateExecFails then ⟨500, none, table, ops⟩
                        else
                          ⟨200, some serviceUrl,
                            applyUpdate table req.containerImage req.minInstances
                              req.maxInstances existingId, ops⟩
                      | none =>
                        let ops := ops0 ++
                          [DbOp.insertRow req.name serviceUrl req.containerImage
                            env.email req.minInstances req.maxInstances]
                        if env.insertExecFails then ⟨500, none, table, ops⟩
                        else
                          ⟨200, some serviceUrl,
                            table ++ [⟨env.newId, req.name, serviceUrl,
                              req.containerImage, env.email, req.minInstances,
                              req.maxInstances, env.now, env.now⟩], ops⟩

/-! ### deleteDeploymentByName (internal/api/deleteDeploymentByName.go)

The handler's inline Cloud Storage cleanup shares the object-selection logic
with `cleanupPulumiStateFiles` (internal/api/cleanup.go); `stateObjectsToDelete`
below embeds that shared selection. -/

/-- The `objectsToDelete` collection loop of `deleteDeploymentByName.go`
(lines 153–170) and of `cleanupPulumiStateFiles` (cleanup.go lines 30–47):
every listed bucket object whose nonempty path contains the literal substring
`"project-" ++ deploymentName` anywhere.  The requesting user plays no part in
the selection. -/
def stateObjectsToDelete (objects : List String) (deploymentName : String) :
    List String :=
  objects.filter (fun o =>
    decide (0 < o.length) && strContains o ("project-" ++ deploymentName))

structure DeleteEnv where
  /-- `userClaims.Email` of the authenticated caller. -/
  email : String
  /-- `c.Param("name")`. -/
  name : String
  /-- Does `QueryRow(...).Scan(&deploymentId)` fail for a db-level reason even
  though a row exists?  (`ErrNoRows` is covered by the table lookup itself.) -/
  lookupDbFails : Bool
  /-- `auto.SelectStackInlineSource`. -/
  selectStackRes : Except String Unit
  /-- `w.InstallPlugin(ctx, "gcp", "v9.3.0")`. -/
  installRes : Except String Unit
  /-- Does `s.Refresh(ctx)` fail?  (Logged; destroy proceeds either way.) -/
  refreshFails : Bool
  /-- `s.Destroy(ctx, ...)`. -/
  destroyRes : Except String Unit
  /-- Does `w.RemoveStack(ctx, stackName)` fail?  (Logged; not fatal.) -/
  removeStackFails : Bool
  /-- Does `DELETE FROM deployments WHERE id = $1` fail? -/
  deleteExecFails : Bool
  /-- `storage.NewClient(ctx)`. -/
  storageClientRes : Except String Unit
  /-- The objects of the `PULUMI_STATE_BUCKET` bucket, in listing order. -/
  bucketObjects : List String
  /-- `some k` models `it.Next()` failing after `k` objects were consumed (the
  loop then breaks, keeping what it collected); `none` is a clean listing. -/
  listBreaksAfter : Option Nat
  /-- Which object deletes fail (logged and skipped). -/
  objDeleteFails : String → Bool
  /-- Which directory-marker deletes fail (logged and skipped). -/
  markerDeleteFails : String → Bool

/-- Observable outcome of one `deleteDeploymentByName` run: HTTP status, the
resulting table, the SQL trace, the bucket objects whose deletion was
attempted (in attempt order), and the handler's `deleteCount`. -/
structure DeleteOutcome where
  status : Nat
  table : List Row
  dbOps : List DbOp
  storageDeletesAttempted : List String
  deleteCount : Nat
deriving DecidableEq

/-- Shallow embedding of `deleteDeploymentByName`
(internal/api/deleteDeploymentByName.go, lines 36–212), step for step in
source order. -/
def deleteDeploymentByName (env : DeleteEnv) (table : List Row) : DeleteOutcome :=
  if env.name = "" then ⟨400, table, [], [], 0⟩
  else
    let ops0 := [DbOp.selectId env.name env.email]
    match lookupId table env.name env.email with
    | none => ⟨404, table, ops0, [], 0⟩
    | some deploymentId =>
      if env.lookupDbFails then ⟨404, table, ops0, [], 0⟩
      else
        let _stackAndProject := deleteStackIdentity env.name env.email
        match env.selectStackRes with
        | .error _ => ⟨500, table, ops0, [], 0⟩
        | .ok _ =>
          match env.installRes with
          | .error _ => ⟨500, table, ops0, [], 0⟩
          | .ok _ =>
            match env.destroyRes with
            | .error _ => ⟨500, table, ops0, [], 0⟩
            | .ok _ =>
              let ops1 := ops0 ++ [DbOp.deleteRow deploymentId]
              if env.deleteExecFails then ⟨500, table, ops1, [], 0⟩
              else
                let table1 := table.filter (fun r => !(r.id == deploymentId))
                let projDir := "project-" ++ env.name
                match env.storageClientRes with
                | .error _ => ⟨200, table1, ops1, [], 0⟩
                | .ok _ =>
                  let listed :=
                    match env.listBreaksAfter with
                    | none => env.bucketObjects
                    | some k => env.bucketObjects.take k
                  let objectsToDelete := stateObjectsToDelete listed env.name
                  let attempts := objectsToDelete.reverse
                  let count1 :=
                    (attempts.filter (fun o => !(env.objDeleteFails o))).length
                  let markers := [".pulumi/stacks/" ++ projDir ++ "/",
                                  ".pulumi/stacks/" ++ projDir]
                  let count2 := count1 +
                    (markers.filter (fun m => !(env.markerDeleteFails m))).length
                  ⟨200, table1, ops1, attempts ++ markers, count2⟩

/-! ### cleanupPulumiStateFiles (internal/api/cleanup.go)

Defined in the repository as a standalone best-effort pass; it returns an
error only when the storage client cannot be created, and otherwise always
succeeds with a count of removed objects. -/

structure CleanupEnv where
  storageClientRes : Except String Unit
  bucketObjects : List String
  listBreaksAfter : Option Nat
  objDeleteFails : String → Bool
  markerDeleteFails : String → Bool

/-- Shallow embedding of `cleanupPulumiStateFiles` (cleanup.go lines 15–75):
`.error` only on storage-client creation failure, otherwise `.ok` with the
accumulated delete count. -/
def cleanupPulumiStateFiles (env : CleanupEnv) (deploymentName : String) :
    Except String Nat :=
  match env.storageClientRes with
  | .error e => .error e
  | .ok _ =>
    let listed :=
      match env.listBreaksAfter with
      | none => env.bucketObjects
      | some k => env.bucketObjects.take k
    let objectsToDelete := stateObjectsToDelete listed deploymentName
    let attempts := objectsToDelete.reverse
    let count1 := (attempts.filter (fun o => !(env.objDeleteFails o))).length
    let projDir := "project-" ++ deploymentName
    let markers := [".pulumi/stacks/" ++ projDir ++ "/",
                    ".pulumi/stacks/" ++ projDir]
    .ok (count1 + (markers.filter (fun m => !(env.markerDeleteFails m))).length)

/-! ### pushToContainerRegistry (image ingestion) -/

/-- A call the ingestion handler issues to the Docker daemon, the remote
registry, or the `container_images` table. -/
inductive PushEvent where
  | imageLoad
  | imageTag (target : String)
  | imageRemove (ref : String)
  | registryPush (target : String)
  | dbInsertImage (fqin email : String)
deriving DecidableEq

structure PushEnv where
  /-- `tools.GetUserClaims(authHeader)`: on success the caller's email. -/
  authRes : Except String String
  /-- `client.NewClientWithOpts(client.FromEnv, ...)`: constructs the client
  locally, no daemon round-trip. -/
  clientRes : Except String Unit
  /-- `c.ContentType()`. -/
  contentType : String
  /-- Is the request body a valid gzip stream (`gzip.NewReader` succeeds)? -/
  gzipOk : Bool
  /-- `cli.ImageLoad(ctx, gzr, ...)`. -/
  loadRes : Except String Unit
  /-- `tools.GetContainerImageDetails`: on success `(imageID, imageName)`. -/
  detailsRes : Except String (String × String)
  /-- `os.Getenv("AR_REPO_URL")`. -/
  arRepoUrl : String
  /-- `uuid.New().String()`. -/
  uuid : String
  /-- `cli.ImageTag(ctx, imageID, targetTag)`. -/
  tagRes : Except String Unit
  /-- Does removing the original image fail?  (Logged; not fatal.) -/
  removeOrigFails : Bool
  /-- `name.ParseReference(targetTag)`. -/
  parseRefRes : Except String Unit
  /-- `daemon.Image(imageRef)`. -/
  daemonImageRes : Except String Unit
  /-- `os.ReadFile("./sakey.json")`. -/
  keyRes : Except String String
  /-- `remote.Write(imageRef, img, ...)`. -/
  pushRes : Except String Unit
  /-- Does removing the tagged image fail?  (Logged; not fatal.) -/
  removeTaggedFails : Bool
  /-- Does `INSERT INTO container_images ...` fail? -/
  insertImageFails : Bool

/-- Observable outcome of one ingestion run: HTTP status, the `fqin` of a 200
body, and the trace of daemon/registry/database calls issued. -/
structure PushOutcome where
  status : Nat
  fqin : Option String
  events : List PushEvent
deriving DecidableEq

/-- Shallow embedding of `pushToContainerRegistry` (the image-ingestion
handler), step for step in source order: auth, Docker client construction,
content-type check, gzip reader, `ImageLoad`, details, tag, best-effort remove
of the original, reference parse, daemon read, credential read, registry push,
best-effort remove of the tagged copy, `container_images` INSERT. -/
def pushToContainerRegistry (env : PushEnv) : PushOutcome :=
  match env.authRes with
  | .error _ => ⟨401, none, []⟩
  | .ok email =>
    match env.clientRes with
    | .error _ => ⟨500, none, []⟩
    | .ok _ =>
      if env.contentType ≠ "application/gzip" then ⟨415, none, []⟩
      else if !env.gzipOk then ⟨400, none, []⟩
      else
        match env.loadRes with
        | .error _ => ⟨500, none, [.imageLoad]⟩
        | .ok _ =>
          match env.detailsRes with
          | .error _ => ⟨500, none, [.imageLoad]⟩
          | .ok (imageID, imageName) =>
            let shortTag := env.uuid.take 8
            let targetTag := env.arRepoUrl ++ "/" ++ imageName ++ ":" ++ shortTag
            match env.tagRes with
            | .error _ => ⟨500, none, [.imageLoad, .imageTag targetTag]⟩
            | .ok _ =>
              let evs1 : List PushEvent :=
                [.imageLoad, .imageTag targetTag, .imageRemove imageID]
              match env.parseRefRes with
              | .error _ => ⟨500, none, evs1⟩
              | .ok _ =>
                match env.daemonImageRes with
                | .error _ => ⟨500, none, evs1⟩
                | .ok _ =>
                  match env.keyRes with
                  | .error _ => ⟨500, none, evs1⟩
                  | .ok _ =>
                    match env.pushRes with
                    | .error _ =>
                      ⟨500, none, evs1 ++ [.registryPush targetTag]⟩
                    | .ok _ =>
                      let evs2 := evs1 ++
                        [.registryPush targetTag, .imageRemove targetTag,
                         .dbInsertImage targetTag email]
                      if env.insertImageFails then ⟨500, none, evs2⟩
                      else ⟨200, some targetTag, evs2⟩

/-! ### listDeployments (paginated, searchable listing) -/

/-- `coercePage`: `strconv.Atoi` result, coerced to `1` on parse failure or a
value below `1` (listDeployments lines 46–49). -/
def coercePage (s : String) : Nat :=
  match goAtoi s with
  | none => 1
  | some n => if n < 1 then 1 else n.toNat

/-- `coerceLimit`: `strconv.Atoi` result, coerced to `10` on parse failure or
a value outside `1..100` (listDeployments lines 51–54). -/
def coerceLimit (s : String) : Nat :=
  match goAtoi s with
  | none => 10
  | some n => if n < 1 || 100 < n then 10 else n.toNat

/-- ASCII lowercase of a character (the case folding Go `strings.ToLower` and
SQL `LOWER` perform on ASCII data). -/
def charToLower (c : Char) : Char :=
  if 65 ≤ c.toNat && c.toNat ≤ 90 then Char.ofNat (c.toNat + 32) else c

/-- ASCII lowercase of a string. -/
def sToLower (s : String) : String := String.mk (s.data.map charToLower)

/-- The SQL search predicate: always `user_email = $1`, and when a search term
is present, `LOWER(name) LIKE $2 OR LOWER(url) LIKE $2 OR
LOWER(container_image) LIKE $2` with `$2 = "%" ++ lower(search) ++ "%"`,
modelled as case-insensitive substring containment (the LIKE pattern for a
metacharacter-free term). -/
def rowMatches (email search : String) (r : Row) : Bool :=
  r.userEmail == email &&
    (search == "" ||
      (strContains (sToLower r.name) (sToLower search) ||
       strContains (sToLower r.url) (sToLower search) ||
       strContains (sToLower r.containerImage) (sToLower search)))

/-- Insertion step for `ORDER BY name ASC`. -/
def insertByName (r : Row) : List Row → List Row
  | [] => [r]
  | x :: xs => if x.name < r.name then x :: insertByName r xs else r :: x :: xs

/-- `ORDER BY name ASC` on the row list. -/
def sortByName (l : List Row) : List Row := l.foldr insertByName []

/-- The Go slice `deployments` built by the scan loop: `nil` (`none`) when no
row was appended, as `encoding/json` distinguishes nil from empty slices. -/
def scanLoopSlice (rows : List Row) : Option (List Row) :=
  rows.foldl (fun acc r => some (acc.getD [] ++ [r])) none

/-- JSON value of a Go `[]models.Deployment`: `null` for a nil slice, an array
otherwise (`encoding/json` semantics). -/
inductive SliceJson where
  | null
  | arr (rows : List Row)
deriving DecidableEq

/-- Marshal a Go slice field: nil becomes JSON `null`. -/
def marshalSlice : Option (List Row) → SliceJson
  | none => .null
  | some l => .arr l

structure ListEnv where
  /-- `userClaims.Email`. -/
  email : String
  /-- `c.DefaultQuery("page", "1")`: `none` when absent. -/
  pageParam : Option String
  /-- `c.DefaultQuery("limit", "10")`: `none` when absent. -/
  limitParam : Option String
  /-- `c.Query("search")`: empty string when absent. -/
  searchParam : String
  /-- Does the COUNT query fail? -/
  countFails : Bool
  /-- Does the page query fail? -/
  queryFails : Bool
  /-- Does `rows.Scan` fail (on the first scanned row)? -/
  scanFails : Bool
  /-- Does `rows.Err()` report an error? -/
  rowsErrFails : Bool

/-- The JSON body of a 200 response of the listing handler
(`api.PaginatedDeploymentsResponse`); `deployments` is the raw Go slice. -/
structure ListResp where
  deployments : Option (List Row)
  count : Nat
  page : Nat
  limit : Nat
  totalPages : Nat
deriving DecidableEq

/-- Outcome of one `listDeployments` run. -/
inductive ListOutcome where
  | err (status : Nat)
  | ok (resp : ListResp)
deriving DecidableEq

/-- Shallow embedding of `listDeployments`, step for step in source order:
parameter coercion, offset, dynamic WHERE clause (user scope plus optional
search), COUNT, page query with `ORDER BY name ASC LIMIT ... OFFSET ...`,
scan loop, ceiling division for `total_pages`. -/
def listDeployments (env : ListEnv) (table : List Row) : ListOutcome :=
  let page := coercePage (env.pageParam.getD "1")
  let limit := coerceLimit (env.limitParam.getD "10")
  let offset := (page - 1) * limit
  let filtered := table.filter (rowMatches env.email env.searchParam)
  if env.countFails then .err 500
  else
    let totalCount := filtered.length
    if env.queryFails then .err 500
    else
      let pageRows := ((sortByName filtered).drop offset).take limit
      if env.scanFails && !pageRows.isEmpty then .err 500
      else if env.rowsErrFails then .err 500
      else
        let totalPages := (totalCount + limit - 1) / limit
        .ok ⟨scanLoopSlice pageRows, totalCount, page, limit, totalPages⟩

/-- Which scaling bounds a SQL write carries (the claim about stored bounds is
a claim about these values). -/
def opBounds : DbOp → Option (Int × Int)
  | .updateRow _ mn mx _ => some (mn, mx)
  | .insertRow _ _ _ _ mn mx => some (mn, mx)
  | _ => none

/-! ### Concrete instances used by witnesses and counterexamples -/

/-- A create request naming `"app"`, image `"img"`, both bounds omitted. -/
def reqC1 : RequestBody := ⟨"app", "img", 0, 0⟩

/-- A create run in which every step up to and including plugin installation
succeeds and the stack refresh fails. -/
def envC1 : CreateEnv :=
  ⟨.ok reqC1, "u@example.com", false, false, .ok (), .ok (),
   .error "refresh failed", .ok (some [("update", 1)]), .ok (some "http://svc"),
   false, false, "id-new", 1⟩

/-- An existing deployment row owned by `"u@example.com"`. -/
def rowC3 : Row := ⟨"id-1", "svc", "http://old", "img1", "u@example.com", 0, 1, 5, 5⟩

/-- A fully successful update run whose engine outputs carry the fresh address
`"http://new"`. -/
def envC3 : CreateEnv :=
  ⟨.ok ⟨"svc", "img2", 0, 0⟩, "u@example.com", false, false, .ok (), .ok (),
   .ok (), .ok (some [("update", 1)]), .ok (some "http://new"),
   false, false, "id-unused", 99⟩

/-- A fully successful create run whose request carries `min = 5`, `max = 2`. -/
def envC5 : CreateEnv :=
  ⟨.ok ⟨"svc", "img", 5, 2⟩, "u@e", false, false, .ok (), .ok (), .ok (),
   .ok (some [("create", 2)]), .ok (some "http://u"), false, false, "id-9", 7⟩

/-- A fully successful create run whose request omits both bounds. -/
def envC5w : CreateEnv :=
  ⟨.ok ⟨"svc", "img", 0, 0⟩, "u@e", false, false, .ok (), .ok (), .ok (),
   .ok (some [("create", 2)]), .ok (some "http://u"), false, false, "id-9", 7⟩

/-- A deployment row for the delete scenarios. -/
def rowDel : Row := ⟨"id-1", "app", "http://a", "img", "u@e", 0, 1, 0, 0⟩

/-- A delete run that fails at the destroy step. -/
def envC2 : DeleteEnv :=
  ⟨"u@e", "app", false, .ok (), .ok (), false, .error "destroy failed", false,
   false, .ok (), [".pulumi/stacks/project-app/stack.json"], none,
   fun _ => false, fun _ => false⟩

/-- A delete run that succeeds through the database deletion while every
best-effort step (refresh, stack removal, storage client, listing, object and
marker deletes) fails. -/
def envC6 : DeleteEnv :=
  ⟨"u@e", "app", false, .ok (), .ok (), true, .ok (), true, false,
   .error "no storage client", [], some 0, fun _ => true, fun _ => true⟩

/-- An ingestion request whose content type is not `application/gzip`. -/
def envC7 : PushEnv :=
  ⟨.ok "u@e", .ok (), "text/plain", true, .ok (), .ok ("sha:1", "img"),
   "gcr.example/repo", "0123456789abcdef", .ok (), false, .ok (), .ok (),
   .ok "key", .ok (), false, false⟩

/-- Twenty-three deployments owned by `"u@e"`. -/
def tableC8 : List Row :=
  (List.range 23).map (fun i =>
    ⟨toString i, "dep" ++ toString i, "http://u", "img", "u@e", 0, 1, 0, 0⟩)

/-- A listing request for page 3 with limit 10 and no search term. -/
def envC8 : ListEnv := ⟨"u@e", some "3", some "10", "", false, false, false, false⟩

/-- A listing request whose search term matches nothing. -/
def envC9 : ListEnv := ⟨"u@e", none, none, "zzz", false, false, false, false⟩

/-- A table in which `envC9`'s search term matches no row of the user. -/
def tableC9 : List Row := [⟨"id-1", "hello", "http://h", "img", "u@e", 0, 1, 0, 0⟩]

/-! ### Helper lemmas -/

theorem startsWithSeq_of_append {α : Type} [DecidableEq α] :
    ∀ (hay u v : List α), startsWithSeq hay (u ++ v) = true →
      startsWithSeq hay u = true := by
  intro hay u v
  induction u generalizing hay with
  | nil => intro _; cases hay <;> rfl
  | cons b bs ih =>
    intro h
    cases hay with
    | nil => simp [startsWithSeq] at h
    | cons a as =>
      simp only [startsWithSeq, List.cons_append, Bool.and_eq_true] at h ⊢
      exact ⟨h.1, ih as h.2⟩

theorem containsSeq_nil_needle {α : Type} [DecidableEq α] (hay : List α) :
    containsSeq hay ([] : List α) = true := by
  cases hay <;> rfl

theorem containsSeq_of_append {α : Type} [DecidableEq α] :
    ∀ (hay u v : List α), containsSeq hay (u ++ v) = true →
      containsSeq hay u = true := by
  intro hay u v
  induction hay with
  | nil =>
    intro h
    cases u with
    | nil => exact containsSeq_nil_needle []
    | cons b bs => simp [containsSeq, startsWithSeq] at h
  | cons a as ih =>
    intro h
    simp only [containsSeq, Bool.or_eq_true] at h ⊢
    rcases h with h | h
    · exact Or.inl (startsWithSeq_of_append _ _ _ h)
    · exact Or.inr (ih h)

theorem hay_ne_nil_of_containsSeq {α : Type} [DecidableEq α] (b : α) (bs hay : List α)
    (h : containsSeq hay (b :: bs) = true) : hay ≠ [] := by
  intro he; subst he; simp [containsSeq, startsWithSeq] at h

/-! ### Claims -/

/-- C4: for every user identity and deployment name, the create-or-update
operation and the delete operation derive the identical stack identity —
`stackName = "stack-" ++ name ++ "-" ++ hex(sha256(identity))[:8]` and
`projectName = "project-" ++ name` — as a pure deterministic function of
`(name, identity)`, the same across repeated calls and across both
operations. -/
theorem c4_stack_identity_deterministic (name email : String) :
    createStackIdentity name email = deleteStackIdentity name email ∧
    createStackIdentity name email =
      ("stack-" ++ name ++ "-" ++ (hexOfBytes (sha256 (utf8Bytes email))).take 8,
       "project-" ++ name) :=
  ⟨rfl, rfl⟩

/-- C10: the remote-state cleanup selects every bucket object whose full path
contains the literal substring `"project-" ++ deploymentName` anywhere, so
deleting a deployment named `name` also selects the state objects of every
deployment whose name extends `name` (paths containing
`"project-" ++ name ++ suffix`), whoever owns it — the selection takes no
user argument at all. -/
theorem c10_cleanup_selects_extended_names
    (objects : List String) (name suffix path : String)
    (hmem : path ∈ objects)
    (hsub : strContains path ("project-" ++ (name ++ suffix)) = true) :
    path ∈ stateObjectsToDelete objects name := by
  have hdata : ("project-" ++ (name ++ suffix)).data =
      ("project-" ++ name).data ++ suffix.data := by
    rw [← String.append_assoc, String.data_append]
  have hsub' : containsSeq path.data
      (("project-" ++ name).data ++ suffix.data) = true := by
    rw [← hdata]; exact hsub
  have hcontains : containsSeq path.data ("project-" ++ name).data = true :=
    containsSeq_of_append _ _ _ hsub'
  have hcons : ("project-" ++ name).data = 'p' :: ("roject-".data ++ name.data) := by
    rw [String.data_append]; rfl
  have hne : path.data ≠ [] := by
    rw [hcons] at hcontains
    exact hay_ne_nil_of_containsSeq _ _ _ hcontains
  unfold stateObjectsToDelete
  refine List.mem_filter.mpr ⟨hmem, ?_⟩
  simp only [Bool.and_eq_true, decide_eq_true_eq]
  refine ⟨?_, hcontains⟩
  show 0 < path.data.length
  cases hd : path.data with
  | nil => exact absurd hd hne
  | cons c cs => simp

/-- Witness for C10: deleting `"app"` selects the state object of the
unrelated deployment `"app2"`. -/
theorem c10_witness :
    ".pulumi/stacks/project-app2/stack.json" ∈
      stateObjectsToDelete [".pulumi/stacks/project-app2/stack.json"] "app" :=
  c10_cleanup_selects_extended_names _ "app" "2" _ (by decide) (by decide)

/-- C7: provided the Docker client object could be constructed (a local
operation, no daemon round-trip), an ingestion request whose content type is
not `application/gzip` or whose body is not a valid gzip stream aborts with a
client-error status (4xx) before any `ImageLoad` call is issued, and performs
no tag, no push, and no database write — the event trace is empty. -/
theorem c7_bad_archive_rejected_before_daemon
    (env : PushEnv) (hcli : env.clientRes = Except.ok ())
    (hbad : env.contentType ≠ "application/gzip" ∨ env.gzipOk = false) :
    400 ≤ (pushToContainerRegistry env).status ∧
    (pushToContainerRegistry env).status < 500 ∧
    (pushToContainerRegistry env).events = [] := by
  cases hauth : env.authRes with
  | error e => simp [pushToContainerRegistry, hauth]
  | ok email =>
    by_cases hct : env.contentType = "application/gzip"
    · have hg : env.gzipOk = false := by
        rcases hbad with h | h
        · exact absurd hct h
        · exact h
      simp [pushToContainerRegistry, hauth, hcli, hct, hg]
    · simp [pushToContainerRegistry, hauth, hcli, hct]

/-- Witness for C7 at a concrete request with content type `"text/plain"`. -/
theorem c7_witness :
    400 ≤ (pushToContainerRegistry envC7).status ∧
    (pushToContainerRegistry envC7).status < 500 ∧
    (pushToContainerRegistry envC7).events = [] :=
  c7_bad_archive_rejected_before_daemon envC7 rfl (Or.inl (by decide))

/-- C2: when the delete operation's destroy step fails, the whole operation
returns an error, the deployments table is unchanged (the row for the
`(name, owner)` pair is intact), the only SQL statement issued is the
ownership lookup (no DELETE), and no remote-state object deletion is
attempted — a retry starts from the same state. -/
theorem c2_destroy_failure_leaves_record_intact
    (env : DeleteEnv) (table : List Row) (deploymentId e : String)
    (hname : env.name ≠ "")
    (hfound : lookupId table env.name env.email = some deploymentId)
    (hdb : env.lookupDbFails = false)
    (hsel : env.selectStackRes = Except.ok ())
    (hins : env.installRes = Except.ok ())
    (hdes : env.destroyRes = Except.error e) :
    (deleteDeploymentByName env table).status = 500 ∧
    (deleteDeploymentByName env table).table = table ∧
    (deleteDeploymentByName env table).dbOps =
      [DbOp.selectId env.name env.email] ∧
    (deleteDeploymentByName env table).storageDeletesAttempted = [] := by
  simp [deleteDeploymentByName, hname, hfound, hdb, hsel, hins, hdes]

/-- Witness for C2 at a concrete table and failing destroy. -/
theorem c2_witness :
    (deleteDeploymentByName envC2 [rowDel]).status = 500 ∧
    (deleteDeploymentByName envC2 [rowDel]).table = [rowDel] ∧
    (deleteDeploymentByName envC2 [rowDel]).dbOps = [DbOp.selectId "app" "u@e"] ∧
    (deleteDeploymentByName envC2 [rowDel]).storageDeletesAttempted = [] :=
  c2_destroy_failure_leaves_record_intact envC2 [rowDel] "id-1" "destroy failed"
    (by decide) (by decide) rfl rfl rfl rfl

/-- C6: once the delete operation has removed the database record (the destroy
and the DELETE both succeeded), it returns 200 regardless of the refresh
outcome, the stack-removal outcome, storage-client creation failure, listing
failure, every individual object-delete failure and directory-marker delete
failure — none of those fields is constrained below. -/
theorem c6_cleanup_failures_do_not_affect_success
    (env : DeleteEnv) (table : List Row) (deploymentId : String)
    (hname : env.name ≠ "")
    (hfound : lookupId table env.name env.email = some deploymentId)
    (hdb : env.lookupDbFails = false)
    (hsel : env.selectStackRes = Except.ok ())
    (hins : env.installRes = Except.ok ())
    (hdes : env.destroyRes = Except.ok ())
    (hdel : env.deleteExecFails = false) :
    (deleteDeploymentByName env table).status = 200 ∧
    (deleteDeploymentByName env table).dbOps =
      [DbOp.selectId env.name env.email, DbOp.deleteRow deploymentId] := by
  cases hsc : env.storageClientRes <;>
    simp [deleteDeploymentByName, hname, hfound, hdb, hsel, hins, hdes, hdel, hsc]

/-- Witness for C6: concrete delete run in which the storage client cannot be
created, listing breaks immediately, and every object and marker delete
fails; the operation still reports 200. -/
theorem c6_witness :
    (deleteDeploymentByName envC6 [rowDel]).status = 200 ∧
    (deleteDeploymentByName envC6 [rowDel]).dbOps =
      [DbOp.selectId "app" "u@e", DbOp.deleteRow "id-1"] :=
  c6_cleanup_failures_do_not_affect_success envC6 [rowDel] "id-1"
    (by decide) (by decide) rfl rfl rfl rfl rfl

/-- The handler's default-setting on the minimum bound is the identity. -/
theorem minCoerce_id (m : Int) : (if m = 0 then (0 : Int) else m) = m := by
  by_cases h : m = 0 <;> simp [h]

/-- C1: in the create-or-update operation, failure at any listed
infrastructure step — stack creation/selection (`UpsertStackInlineSource`),
plugin installation, refresh, the engine `Up` call, or an `Up` result whose
resource-change map is nil, empty, or sums to zero — yields an error status,
leaves the deployments table unchanged, and issues no INSERT or UPDATE: the
SQL trace holds exactly the read-only existence lookup. -/
theorem c1_infra_failure_before_db_write
    (env : CreateEnv) (table : List Row) (req0 : RequestBody)
    (hbind : env.bindRes = Except.ok req0)
    (hq : env.queryFails = false) (hs : env.scanFails = false)
    (hfail :
      (∃ e, env.upsertRes = Except.error e) ∨
      (∃ e, env.installRes = Except.error e) ∨
      (∃ e, env.refreshRes = Except.error e) ∨
      (∃ e, env.upRes = Except.error e) ∨
      env.upRes = Except.ok none ∨
      (∃ changes, env.upRes = Except.ok (some changes) ∧
        (changes = [] ∨ changes.foldl (fun a p => a + p.2) 0 = 0))) :
    (createDeployment env table).status = 500 ∧
    (createDeployment env table).table = table ∧
    (createDeployment env table).dbOps = [DbOp.selectId req0.name env.email] := by
  rcases hfail with ⟨e, he⟩ | ⟨e, he⟩ | ⟨e, he⟩ | ⟨e, he⟩ | he |
      ⟨ch, he, hch | hch⟩ <;>
    cases hu : env.upsertRes <;> cases hi : env.installRes <;>
      cases hr : env.refreshRes <;> simp_all [createDeployment]

/-- Witness for C1: a concrete create run failing at the refresh step. -/
theorem c1_witness :
    (createDeployment envC1 []).status = 500 ∧
    (createDeployment envC1 []).table = [] ∧
    (createDeployment envC1 []).dbOps = [DbOp.selectId "app" "u@example.com"] :=
  c1_infra_failure_before_db_write envC1 [] reqC1 rfl rfl rfl
    (Or.inr (Or.inr (Or.inl ⟨"refresh failed", rfl⟩)))

/-- Counterexample to C3 as stated: a fully successful update whose engine
outputs carry the fresh address `"http://new"` leaves the row's address at
`"http://old"` and its updated timestamp at its old value — the UPDATE sets
only `container_image`, `min_instances` and `max_instances`, so the address
and the updated timestamp are not mutated. -/
theorem c3_counterexample :
    (createDeployment envC3 [rowC3]).status = 200 ∧
    (createDeployment envC3 [rowC3]).serviceUrl = some "http://new" ∧
    (createDeployment envC3 [rowC3]).table =
      [⟨"id-1", "svc", "http://old", "img2", "u@example.com", 0, 1, 5, 5⟩] ∧
    "http://old" ≠ "http://new" := by decide

/-- C3 (amended): on a subsequent successful create-or-update for an existing
`(name, owner)` pair, the existing row is mutated in its image and scaling
bounds only — id, name, owning user, address, and both timestamps stay
unchanged — the single write is an UPDATE (no INSERT), and no second row is
created (the table's length is unchanged, rows with another id are
untouched). -/
theorem c3_update_frame
    (env : CreateEnv) (table : List Row) (req0 : RequestBody) (existingId : String)
    (hbind : env.bindRes = Except.ok req0)
    (hq : env.queryFails = false) (hs : env.scanFails = false)
    (hfound : lookupId table req0.name env.email = some existingId)
    (hup : env.upsertRes = Except.ok ()) (hins : env.installRes = Except.ok ())
    (href : env.refreshRes = Except.ok ())
    (changes : List (String × Int)) (hupres : env.upRes = Except.ok (some changes))
    (hne : changes.isEmpty = false)
    (hsum : changes.foldl (fun a p => a + p.2) 0 ≠ 0)
    (urlOpt : Option String) (hout : env.outputsRes = Except.ok urlOpt)
    (hupd : env.updateExecFails = false) :
    (createDeployment env table).status = 200 ∧
    (createDeployment env table).dbOps =
      [DbOp.selectId req0.name env.email,
       DbOp.updateRow req0.containerImage req0.minInstances
         (if req0.maxInstances = 0 then 1 else req0.maxInstances) existingId] ∧
    (createDeployment env table).table.length = table.length ∧
    (∀ r ∈ table, ¬(r.id = existingId) → r ∈ (createDeployment env table).table) ∧
    (∀ r ∈ table, r.id = existingId →
      { r with containerImage := req0.containerImage,
               minInstances := req0.minInstances,
               maxInstances :=
                 if req0.maxInstances = 0 then 1 else req0.maxInstances }
        ∈ (createDeployment env table).table) := by
  have hred : createDeployment env table =
      ⟨200, some (urlOpt.getD "URL not available"),
       applyUpdate table req0.containerImage req0.minInstances
         (if req0.maxInstances = 0 then 1 else req0.maxInstances) existingId,
       [DbOp.selectId req0.name env.email,
        DbOp.updateRow req0.containerImage req0.minInstances
          (if req0.maxInstances = 0 then 1 else req0.maxInstances) existingId]⟩ := by
    simp [createDeployment, hbind, hq, hs, hfound, hup, hins, href, hupres,
      hne, hsum, hout, hupd, minCoerce_id]
  rw [hred]
  refine ⟨rfl, rfl, ?_, ?_, ?_⟩
  · simp [applyUpdate]
  · intro r hr hne2
    have hb : (r.id == existingId) = false := by simp [hne2]
    simp only [applyUpdate, List.mem_map]
    exact ⟨r, hr, by simp [hb]⟩
  · intro r hr heq
    have hb : (r.id == existingId) = true := by simp [heq]
    simp only [applyUpdate, List.mem_map]
    exact ⟨r, hr, by simp [hb]⟩

/-- Witness for the amended C3 at a concrete existing row. -/
theorem c3_witness :
    (createDeployment envC3 [rowC3]).status = 200 ∧
    (createDeployment envC3 [rowC3]).dbOps =
      [DbOp.selectId "svc" "u@example.com", DbOp.updateRow "img2" 0 1 "id-1"] ∧
    (createDeployment envC3 [rowC3]).table.length = 1 := by
  obtain ⟨h1, h2, h3, _, _⟩ :=
    c3_update_frame envC3 [rowC3] ⟨"svc", "img2", 0, 0⟩ "id-1" rfl rfl rfl
      (by decide) rfl rfl rfl [("update", 1)] rfl (by decide) (by decide)
      (some "http://new") rfl rfl
  exact ⟨h1, h2, h3⟩

/-- Counterexample to C5 as stated: the request `min = 5`, `max = 2` is
accepted (200) and stored as-is, violating `max ≥ min`. -/
theorem c5_counterexample :
    (createDeployment envC5 []).status = 200 ∧
    (createDeployment envC5 []).table =
      [⟨"id-9", "svc", "http://u", "img", "u@e", 5, 2, 7, 7⟩] ∧
    ¬(∀ r ∈ (createDeployment envC5 []).table,
        0 ≤ r.minInstances ∧ 1 ≤ r.maxInstances ∧
          r.minInstances ≤ r.maxInstances) := by decide

/-- C5 (amended): every successful create-or-update stores the requested
minimum unchanged and the requested maximum coerced from `0` to `1` — and
nothing more is enforced; in particular, a request with both bounds omitted
(zero) stores `min = 0`, `max = 1`, which does satisfy
`min ≥ 0 ∧ max ≥ 1 ∧ max ≥ min`. -/
theorem c5_stored_bounds
    (env : CreateEnv) (table : List Row) (req0 : RequestBody)
    (hbind : env.bindRes = Except.ok req0)
    (hq : env.queryFails = false) (hs : env.scanFails = false)
    (hup : env.upsertRes = Except.ok ()) (hins : env.installRes = Except.ok ())
    (href : env.refreshRes = Except.ok ())
    (changes : List (String × Int)) (hupres : env.upRes = Except.ok (some changes))
    (hne : changes.isEmpty = false)
    (hsum : changes.foldl (fun a p => a + p.2) 0 ≠ 0)
    (urlOpt : Option String) (hout : env.outputsRes = Except.ok urlOpt)
    (hupd : env.updateExecFails = false) (hinsx : env.insertExecFails = false) :
    (createDeployment env table).status = 200 ∧
    (∀ op ∈ (createDeployment env table).dbOps,
      opBounds op = none ∨
      opBounds op = some (req0.minInstances,
        if req0.maxInstances = 0 then 1 else req0.maxInstances)) ∧
    (req0.minInstances = 0 ∧ req0.maxInstances = 0 →
      ∀ op ∈ (createDeployment env table).dbOps,
        opBounds op = none ∨ opBounds op = some (0, 1)) := by
  have main : (createDeployment env table).status = 200 ∧
      ∀ op ∈ (createDeployment env table).dbOps,
        opBounds op = none ∨
        opBounds op = some (req0.minInstances,
          if req0.maxInstances = 0 then 1 else req0.maxInstances) := by
    cases hfound : lookupId table req0.name env.email with
    | none =>
      have hred : createDeployment env table =
          ⟨200, some (urlOpt.getD "URL not available"),
           table ++ [⟨env.newId, req0.name, urlOpt.getD "URL not available",
             req0.containerImage, env.email, req0.minInstances,
             if req0.maxInstances = 0 then 1 else req0.maxInstances,
             env.now, env.now⟩],
           [DbOp.selectId req0.name env.email,
            DbOp.insertRow req0.name (urlOpt.getD "URL not available")
              req0.containerImage env.email req0.minInstances
              (if req0.maxInstances = 0 then 1 else req0.maxInstances)]⟩ := by
        simp [createDeployment, hbind, hq, hs, hfound, hup, hins, href, hupres,
          hne, hsum, hout, hinsx, minCoerce_id]
      rw [hred]
      refine ⟨rfl, ?_⟩
      intro op hop
      simp only [List.mem_cons, List.not_mem_nil, or_false] at hop
      rcases hop with rfl | rfl
      · exact Or.inl rfl
      · exact Or.inr rfl
    | some existingId =>
      have hred : createDeployment env table =
          ⟨200, some (urlOpt.getD "URL not available"),
           applyUpdate table req0.containerImage req0.minInstances
             (if req0.maxInstances = 0 then 1 else req0.maxInstances) existingId,
           [DbOp.selectId req0.name env.email,
            DbOp.updateRow req0.containerImage req0.minInstances
              (if req0.maxInstances = 0 then 1 else req0.maxInstances)
              existingId]⟩ := by
        simp [createDeployment, hbind, hq, hs, hfound, hup, hins, href, hupres,
          hne, hsum, hout, hupd, minCoerce_id]
      rw [hred]
      refine ⟨rfl, ?_⟩
      intro op hop
      simp only [List.mem_cons, List.not_mem_nil, or_false] at hop
      rcases hop with rfl | rfl
      · exact Or.inl rfl
      · exact Or.inr rfl
  refine ⟨main.1, main.2, ?_⟩
  rintro ⟨h0, h0'⟩ op hop
  rcases main.2 op hop with h1 | h1
  · exact Or.inl h1
  · right
    rw [h1, h0, h0']
    norm_num

/-- Witness for the amended C5: a request with both bounds omitted stores
`min = 0`, `max = 1`. -/
theorem c5_witness :
    (createDeployment envC5w []).status = 200 ∧
    ∀ op ∈ (createDeployment envC5w []).dbOps,
      opBounds op = none ∨ opBounds op = some (0, 1) := by
  obtain ⟨h1, _h2, h3⟩ :=
    c5_stored_bounds envC5w [] ⟨"svc", "img", 0, 0⟩ rfl rfl rfl rfl rfl rfl
      [("create", 2)] rfl (by decide) (by decide) (some "http://u") rfl rfl rfl
  exact ⟨h1, h3 ⟨rfl, rfl⟩⟩

theorem length_insertByName (r : Row) (l : List Row) :
    (insertByName r l).length = l.length + 1 := by
  induction l with
  | nil => rfl
  | cons x xs ih =>
    by_cases h : x.name < r.name <;> simp [insertByName, h, ih]

theorem length_sortByName (l : List Row) : (sortByName l).length = l.length := by
  induction l with
  | nil => rfl
  | cons x xs ih =>
    show (insertByName x (sortByName xs)).length = xs.length + 1
    rw [length_insertByName, ih]

theorem scanLoopSlice_some (rows : List Row) :
    ∀ acc : List Row,
      rows.foldl (fun a r => some (a.getD [] ++ [r])) (some acc) =
        some (acc ++ rows) := by
  induction rows with
  | nil => intro acc; simp
  | cons r rs ih =>
    intro acc
    simp only [List.foldl_cons, Option.getD_some]
    rw [ih]
    simp

theorem scanLoopSlice_getD (rows : List Row) :
    (scanLoopSlice rows).getD [] = rows := by
  cases rows with
  | nil => rfl
  | cons r rs =>
    calc (scanLoopSlice (r :: rs)).getD []
        = (rs.foldl (fun a x => some (a.getD [] ++ [x])) (some [r])).getD [] := rfl
      _ = (some ([r] ++ rs)).getD [] := by rw [scanLoopSlice_some]
      _ = r :: rs := rfl

theorem coerceLimit_pos (s : String) : 1 ≤ coerceLimit s := by
  cases h : goAtoi s with
  | none => simp [coerceLimit, h]
  | some n =>
    by_cases h1 : n < 1
    · simp [coerceLimit, h, h1]
    · by_cases h2 : 100 < n
      · simp [coerceLimit, h, h2]
      · simp [coerceLimit, h, h1, h2]
        omega

/-- C8: in the listing operation, a page parameter that fails to parse or is
below 1 is coerced to 1; a limit parameter that fails to parse or lies
outside 1–100 is coerced to 10; `total_pages` is the ceiling of
`total_count / limit` (characterised by
`count ≤ total_pages * limit < count + limit`); the returned page holds the
rows at offset `(page - 1) * limit` of the name-ascending order; and for 23
matching rows with `page = 3`, `limit = 10`, `total_pages` is 3 and the page
holds exactly 3 rows. -/
theorem c8_listing_pagination
    (env : ListEnv) (table : List Row)
    (hc : env.countFails = false) (hq : env.queryFails = false)
    (hs : env.scanFails = false) (hr : env.rowsErrFails = false) :
    ∃ resp, listDeployments env table = ListOutcome.ok resp ∧
      resp.page = coercePage (env.pageParam.getD "1") ∧
      resp.limit = coerceLimit (env.limitParam.getD "10") ∧
      (∀ s, goAtoi s = none → coercePage s = 1) ∧
      (∀ s n, goAtoi s = some n → n < 1 → coercePage s = 1) ∧
      (∀ s, goAtoi s = none → coerceLimit s = 10) ∧
      (∀ s n, goAtoi s = some n → (n < 1 ∨ 100 < n) → coerceLimit s = 10) ∧
      resp.count = (table.filter (rowMatches env.email env.searchParam)).length ∧
      resp.count ≤ resp.totalPages * resp.limit ∧
      resp.totalPages * resp.limit < resp.count + resp.limit ∧
      resp.deployments.getD [] =
        ((sortByName (table.filter (rowMatches env.email env.searchParam))).drop
          ((resp.page - 1) * resp.limit)).take resp.limit ∧
      ((table.filter (rowMatches env.email env.searchParam)).length = 23 ∧
        env.pageParam = some "3" ∧ env.limitParam = some "10" →
        resp.totalPages = 3 ∧ (resp.deployments.getD []).length = 3) := by
  have hrun : listDeployments env table =
      ListOutcome.ok
        ⟨scanLoopSlice
            (((sortByName (table.filter (rowMatches env.email env.searchParam))).drop
              ((coercePage (env.pageParam.getD "1") - 1) *
                coerceLimit (env.limitParam.getD "10"))).take
              (coerceLimit (env.limitParam.getD "10"))),
         (table.filter (rowMatches env.email env.searchParam)).length,
         coercePage (env.pageParam.getD "1"),
         coerceLimit (env.limitParam.getD "10"),
         ((table.filter (rowMatches env.email env.searchParam)).length +
            coerceLimit (env.limitParam.getD "10") - 1) /
           coerceLimit (env.limitParam.getD "10")⟩ := by
    simp [listDeployments, hc, hq, hs, hr]
  set p := coercePage (env.pageParam.getD "1") with hpdef
  set l := coerceLimit (env.limitParam.getD "10") with hldef
  set flt := table.filter (rowMatches env.email env.searchParam) with hfdef
  set rows := ((sortByName flt).drop ((p - 1) * l)).take l with hrowsdef
  have hl1 : 1 ≤ l := hldef ▸ coerceLimit_pos _
  refine ⟨_, hrun, rfl, rfl, ?_, ?_, ?_, ?_, rfl, ?_, ?_, ?_, ?_⟩
  · intro s hnone; simp [coercePage, hnone]
  · intro s n hsome hlt; simp [coercePage, hsome, hlt]
  · intro s hnone; simp [coerceLimit, hnone]
  · intro s n hsome hout
    rcases hout with h | h <;> simp [coerceLimit, hsome, h]
  · show flt.length ≤ (flt.length + l - 1) / l * l
    have hdm := Nat.div_add_mod (flt.length + l - 1) l
    have hmod : (flt.length + l - 1) % l < l := Nat.mod_lt _ (by omega)
    rw [Nat.mul_comm]
    set m := l * ((flt.length + l - 1) / l) with hm
    omega
  · show (flt.length + l - 1) / l * l < flt.length + l
    have h2 : (flt.length + l - 1) / l * l ≤ flt.length + l - 1 :=
      Nat.div_mul_le_self _ _
    exact lt_of_le_of_lt h2 (by omega)
  · show (scanLoopSlice rows).getD [] = rows
    exact scanLoopSlice_getD rows
  · rintro ⟨h23, hp, hl10⟩
    have hp3 : p = 3 := by rw [hpdef, hp]; decide
    have hl10' : l = 10 := by rw [hldef, hl10]; decide
    constructor
    · show (flt.length + l - 1) / l = 3
      rw [h23, hl10']
    · show ((scanLoopSlice rows).getD []).length = 3
      rw [scanLoopSlice_getD, hrowsdef]
      simp [List.length_take, List.length_drop, length_sortByName, h23, hp3,
        hl10']

/-- Witness for C8: 23 deployments of one user, `page=3`, `limit=10`. -/
theorem c8_witness :
    ∃ resp, listDeployments envC8 tableC8 = ListOutcome.ok resp ∧
      resp.totalPages = 3 ∧ (resp.deployments.getD []).length = 3 := by
  obtain ⟨resp, hrun, _, _, _, _, _, _, _, _, _, _, hinst⟩ :=
    c8_listing_pagination envC8 tableC8 rfl rfl rfl rfl
  obtain ⟨h1, h2⟩ := hinst ⟨by decide, rfl, rfl⟩
  exact ⟨resp, hrun, h1, h2⟩

/-- Counterexample to C9 as stated: for a user's table in which the search
term matches nothing, the scan loop never appends and the handler serializes
the Go nil slice — JSON `null`, not the empty array `[]`. -/
theorem c9_counterexample :
    tableC9.filter (rowMatches "u@e" "zzz") = [] ∧
    listDeployments envC9 tableC9 = ListOutcome.ok ⟨none, 0, 1, 10, 0⟩ ∧
    marshalSlice none = SliceJson.null ∧
    SliceJson.null ≠ SliceJson.arr [] := by decide

/-- C9 (amended): when the search term matches no deployment of the
requesting user — a match being a case-insensitive substring occurrence in
the name, the address, or the image reference — the response carries count 0
and a `deployments` field that is the Go nil slice, serialized as JSON
`null` rather than `[]`. -/
theorem c9_no_match_null_slice
    (env : ListEnv) (table : List Row)
    (hc : env.countFails = false) (hq : env.queryFails = false)
    (hs : env.scanFails = false) (hr : env.rowsErrFails = false)
    (hnone : table.filter (rowMatches env.email env.searchParam) = []) :
    listDeployments env table = ListOutcome.ok
      ⟨none, 0, coercePage (env.pageParam.getD "1"),
       coerceLimit (env.limitParam.getD "10"), 0⟩ ∧
    marshalSlice none = SliceJson.null := by
  refine ⟨?_, rfl⟩
  have hl1 : 1 ≤ coerceLimit (env.limitParam.getD "10") := coerceLimit_pos _
  have hzero : (coerceLimit (env.limitParam.getD "10") - 1) /
      coerceLimit (env.limitParam.getD "10") = 0 :=
    Nat.div_eq_of_lt (by omega)
  simp [listDeployments, hc, hq, hs, hr, hnone, sortByName, scanLoopSlice,
    hzero, Nat.div_eq_of_lt, hl1]

/-- Witness for the amended C9 at a concrete one-row table. -/
theorem c9_witness :
    listDeployments envC9 tableC9 = ListOutcome.ok ⟨none, 0, 1, 10, 0⟩ ∧
    marshalSlice none = SliceJson.null := by
  have h := c9_no_match_null_slice envC9 tableC9 rfl rfl rfl rfl (by decide)
  exact h
